import Mathlib

/-!
# Focus timer (`src/script.js`)

A shallow embedding of the focus-timer part of `script.js`: the module-level
`state.timer` object, the `TIMER_MODES` table, the `zenfocus_settings` entry of
`localStorage`, and the functions `setTimerMode`, `toggleTimer`, `startTimer`
(with the callback it installs), `pauseTimer`, `resetTimer`, `completeTimer`,
`setProgress` and the load and save parts of `setupSettings`.

Modelling conventions.

* JavaScript numbers that hold integers (`timeLeft`, the table entries, the
  parsed minute values) are `Int`; this is exact inside the safe-integer range
  of a double.  A `NaN` coming out of `parseInt` is outside the model.
* The one non-integer computation, `(timeLeft / totalTime) * 100`, lives in
  `JSNum`, which keeps the IEEE special values of a division by zero and uses
  exact rationals for finite results.
* `setInterval` and `clearInterval` act on the list `alive` of the handles
  installed by `startTimer` and not yet cleared; `nextId` is the handle the
  next `setInterval` returns.  The clock interval of `setupClock` is never
  cleared and never touches the timer, so it is not part of `alive`.
* DOM writes (`updateTimerDisplay`, `updateStartButton`, `modal.close`) change
  nothing the timer reads back and are left out; of `setProgress` the argument
  is recorded; the two `alert` calls are counted.
-/

namespace Focus

/-! ## Data model -/

/-- The three keys of `TIMER_MODES`, the values of `state.timer.mode`. -/
inductive Mode where
  | focus
  | short
  | long
  deriving DecidableEq, Repr

/-- A JavaScript number as produced by the progress computation: a finite
value, one of the two infinities, or `NaN`. -/
inductive JSNum where
  | fin (q : ℚ)
  | posInf
  | negInf
  | nan
  deriving DecidableEq

/-- The `TIMER_MODES` object (seconds per mode). -/
structure TimerModes where
  focus : Int
  short : Int
  long : Int
  deriving DecidableEq, Repr

/-- The lookup `TIMER_MODES[mode]`. -/
def TimerModes.get (t : TimerModes) : Mode → Int
  | Mode.focus => t.focus
  | Mode.short => t.short
  | Mode.long => t.long

/-- The `newSettings` object of the save handler, which is also the JSON value
stored under `zenfocus_settings` (minutes per mode). -/
structure Settings where
  focus : Int
  short : Int
  long : Int
  deriving DecidableEq, Repr

/-- The `state.timer` object. -/
structure Timer where
  timeLeft : Int
  mode : Mode
  isRunning : Bool
  intervalId : Option Nat
  deriving DecidableEq, Repr

/-- Everything the timer code reads or writes. -/
structure World where
  /-- The object `state.timer`. -/
  timer : Timer
  /-- The table `TIMER_MODES`. -/
  TIMER_MODES : TimerModes
  /-- The entry `localStorage['zenfocus_settings']`, `none` when absent. -/
  settings : Option Settings
  /-- Handles installed by `startTimer` and not yet cleared. -/
  alive : List Nat
  /-- The handle the next `setInterval` returns. -/
  nextId : Nat
  /-- The argument of the last `setProgress` call (a percentage). -/
  progress : JSNum
  /-- How many times `alert('Timer Completed!')` ran. -/
  completedAlerts : Nat
  /-- How many times the validation `alert` of the save handler ran. -/
  invalidAlerts : Nat

/-! ## JavaScript arithmetic used by the tick callback -/

/-- The division `a / b` of two integer-valued numbers: `0 / 0` is `NaN`, a
non-zero numerator over `0` is an infinity of the numerator's sign. -/
def jsDiv (a b : Int) : JSNum :=
  if b = 0 then
    if a = 0 then JSNum.nan
    else if 0 < a then JSNum.posInf
    else JSNum.negInf
  else JSNum.fin ((a : ℚ) / (b : ℚ))

/-- The product `x * c` of a number with a positive finite constant. -/
def jsMulPos (x : JSNum) (c : ℚ) : JSNum :=
  match x with
  | JSNum.fin q => JSNum.fin (q * c)
  | JSNum.posInf => JSNum.posInf
  | JSNum.negInf => JSNum.negInf
  | JSNum.nan => JSNum.nan

/-- The value of `state.timer.timeLeft / totalTime` in the tick callback. -/
def progressFraction (timeLeft totalTime : Int) : JSNum :=
  jsDiv timeLeft totalTime

/-- The value of `const progress = (state.timer.timeLeft / totalTime) * 100`. -/
def progressPercent (timeLeft totalTime : Int) : JSNum :=
  jsMulPos (progressFraction timeLeft totalTime) 100

/-! ## Timer operations -/

/-- The call `clearInterval(id)`: clearing `null` or a dead handle does
nothing. -/
def clearInterval (id : Option Nat) (w : World) : World :=
  match id with
  | none => w
  | some i => { w with alive := w.alive.filter (fun j => decide (j ≠ i)) }

/-- The function `setProgress(percent)`; the stroke offset it writes is
determined by `percent`, which is what the model records. -/
def setProgress (percent : JSNum) (w : World) : World :=
  { w with progress := percent }

/-- The function `setTimerMode(mode)`. -/
def setTimerMode (mode : Mode) (w : World) : World :=
  let w1 : World := { w with timer := { w.timer with mode := mode } }
  let w2 : World := { w1 with timer := { w1.timer with timeLeft := w1.TIMER_MODES.get mode } }
  let w3 : World := { w2 with timer := { w2.timer with isRunning := false } }
  let w4 := clearInterval w3.timer.intervalId w3
  setProgress (JSNum.fin 100) w4

/-- The function `pauseTimer()`. -/
def pauseTimer (w : World) : World :=
  let w1 : World := { w with timer := { w.timer with isRunning := false } }
  clearInterval w1.timer.intervalId w1

/-- The function `resetTimer()`. -/
def resetTimer (w : World) : World :=
  let w1 := pauseTimer w
  let w2 : World :=
    { w1 with timer := { w1.timer with timeLeft := w1.TIMER_MODES.get w1.timer.mode } }
  setProgress (JSNum.fin 100) w2

/-- The function `completeTimer()`: pause, the beep (fire and forget), the
alert, then reset. -/
def completeTimer (w : World) : World :=
  let w1 := pauseTimer w
  let w2 : World := { w1 with completedAlerts := w1.completedAlerts + 1 }
  resetTimer w2

/-- The first part of the interval callback, up to and including
`setProgress(progress)`: the decrement and the progress update. -/
def tickBody (w : World) : World :=
  let w1 : World := { w with timer := { w.timer with timeLeft := w.timer.timeLeft - 1 } }
  let totalTime := w1.TIMER_MODES.get w1.timer.mode
  let progress := progressPercent w1.timer.timeLeft totalTime
  setProgress progress w1

/-- The whole callback handed to `setInterval` in `startTimer`. -/
def intervalCallback (w : World) : World :=
  let w1 := tickBody w
  if w1.timer.timeLeft ≤ 0 then completeTimer w1 else w1

/-- The function `startTimer()`: mark running and install a new interval,
recording its handle. -/
def startTimer (w : World) : World :=
  let w1 : World := { w with timer := { w.timer with isRunning := true } }
  { w1 with
    timer := { w1.timer with intervalId := some w1.nextId }
    alive := w1.nextId :: w1.alive
    nextId := w1.nextId + 1 }

/-- The function `toggleTimer()`. -/
def toggleTimer (w : World) : World :=
  if w.timer.isRunning then pauseTimer w else startTimer w

/-- One firing of the interval with handle `i`: the callback runs when the
interval is alive, and a cleared interval never fires. -/
def tick (i : Nat) (w : World) : World :=
  if i ∈ w.alive then intervalCallback w else w

/-! ## Settings -/

/-- The test `newSettings.focus < 1 || newSettings.short < 1 ||
newSettings.long < 1` of the save handler. -/
def settingsInvalid (s : Settings) : Bool :=
  decide (s.focus < 1) || decide (s.short < 1) || decide (s.long < 1)

/-- The click listener of `save-settings-btn` in `setupSettings`, applied to
the three parsed input values. -/
def saveSettings (focus short long : Int) (w : World) : World :=
  let newSettings : Settings := { focus := focus, short := short, long := long }
  if settingsInvalid newSettings then
    { w with invalidAlerts := w.invalidAlerts + 1 }
  else
    let w1 : World := { w with settings := some newSettings }
    let w2 : World :=
      { w1 with TIMER_MODES :=
          { focus := newSettings.focus * 60
            short := newSettings.short * 60
            long := newSettings.long * 60 } }
    if !w2.timer.isRunning then
      let w3 : World :=
        { w2 with timer := { w2.timer with timeLeft := w2.TIMER_MODES.get w2.timer.mode } }
      setProgress (JSNum.fin 100) w3
    else w2

/-- The module-level initial values of `state.timer` and `TIMER_MODES`, with
`saved` the content of `zenfocus_settings` found in storage; the ring starts
with offset `0`, which is what `setProgress(100)` writes. -/
def initialState (saved : Option Settings) : World :=
  { timer := { timeLeft := 25 * 60, mode := Mode.focus, isRunning := false, intervalId := none }
    TIMER_MODES := { focus := 25 * 60, short := 5 * 60, long := 15 * 60 }
    settings := saved
    alive := []
    nextId := 0
    progress := JSNum.fin 100
    completedAlerts := 0
    invalidAlerts := 0 }

/-- The "Load saved settings" part of `setupSettings`. -/
def loadSettings (w : World) : World :=
  match w.settings with
  | none => w
  | some savedSettings =>
    let w1 : World :=
      { w with TIMER_MODES :=
          { focus := savedSettings.focus * 60
            short := savedSettings.short * 60
            long := savedSettings.long * 60 } }
    if !w1.timer.isRunning then
      { w1 with timer := { w1.timer with timeLeft := w1.TIMER_MODES.get w1.timer.mode } }
    else w1

/-- The state once the `DOMContentLoaded` handler has run `init()` and
`setupSettings()`. -/
def boot (saved : Option Settings) : World :=
  loadSettings (initialState saved)

/-! ## Reference definition of the progress fraction -/

/-- The progress fraction as the specification words it: `0` when `total` is
`0`, otherwise `remaining / total` clamped to the interval `[0, 1]`. -/
def progressRef (remaining total : Int) : ℚ :=
  if total = 0 then 0
  else max 0 (min 1 ((remaining : ℚ) / (total : ℚ)))

/-! ## Call sequences and user events -/

/-- The four timer calls of the specification: `start`, `pause`, `reset` and
`switchMode`. -/
inductive Call where
  | start
  | pause
  | reset
  | switchMode (m : Mode)
  deriving DecidableEq, Repr

/-- The function each call runs. -/
def Call.apply : Call → World → World
  | Call.start => startTimer
  | Call.pause => pauseTimer
  | Call.reset => resetTimer
  | Call.switchMode m => setTimerMode m

/-- The state after a sequence of calls, made one after the other. -/
def runCalls (cs : List Call) (w : World) : World :=
  cs.foldl (fun st c => c.apply st) w

/-- Whether every `start` of the sequence is made while the timer is not
running, which is the test `toggleTimer` makes before it calls `startTimer`. -/
def startsGuarded : List Call → World → Bool
  | [], _ => true
  | Call.start :: cs, w => !w.timer.isRunning && startsGuarded cs (startTimer w)
  | c :: cs, w => startsGuarded cs (c.apply w)

/-- The events the page wires to the timer: the click listeners registered in
`setupTimer` and `setupSettings`, and a firing of an interval. -/
inductive UIEvent where
  | clickStart
  | clickReset
  | clickMode (m : Mode)
  | clickSave (focus short long : Int)
  | fire (i : Nat)
  deriving DecidableEq, Repr

/-- The handler each event runs. -/
def UIEvent.apply : UIEvent → World → World
  | UIEvent.clickStart => toggleTimer
  | UIEvent.clickReset => resetTimer
  | UIEvent.clickMode m => setTimerMode m
  | UIEvent.clickSave f s l => saveSettings f s l
  | UIEvent.fire i => tick i

/-- The state after a sequence of events. -/
def runUI (es : List UIEvent) (w : World) : World :=
  es.foldl (fun st e => e.apply st) w

/-- An idle timer whose remaining time is `0`: the default table, mode `focus`,
not running, no interval. -/
def idleAtZero : World :=
  { initialState none with
    timer := { timeLeft := 0, mode := Mode.focus, isRunning := false, intervalId := none } }

/-! ## Predicates on states -/

/-- The range predicate `0 <= timeLeft <= TIMER_MODES[mode]`. -/
def timeInRange (w : World) : Prop :=
  0 ≤ w.timer.timeLeft ∧ w.timer.timeLeft ≤ w.TIMER_MODES.get w.timer.mode

instance (w : World) : Decidable (timeInRange w) :=
  inferInstanceAs (Decidable (_ ∧ _))

/-- Every entry of `TIMER_MODES` is at least `0`. -/
def modesNonneg (w : World) : Prop :=
  0 ≤ w.TIMER_MODES.focus ∧ 0 ≤ w.TIMER_MODES.short ∧ 0 ≤ w.TIMER_MODES.long

instance (w : World) : Decidable (modesNonneg w) :=
  inferInstanceAs (Decidable (_ ∧ _))

/-- Exactly one interval is alive and it is the one recorded in
`state.timer.intervalId`. -/
def oneRecorded (w : World) : Prop :=
  w.alive.length = 1 ∧ ∀ i ∈ w.alive, w.timer.intervalId = some i

instance (w : World) : Decidable (oneRecorded w) :=
  inferInstanceAs (Decidable (_ ∧ _))

/-- The running flag and the live intervals agree: running exactly when the
recorded interval is the only one alive, not running exactly when none is. -/
def inSync (w : World) : Prop :=
  (w.timer.isRunning = true ↔ oneRecorded w) ∧ (w.timer.isRunning = false ↔ w.alive = [])

instance (w : World) : Decidable (inSync w) :=
  inferInstanceAs (Decidable (_ ∧ _))

/-- Stored settings as the save handler can have written them: every value
at least one minute. -/
def savedValid : Option Settings → Prop
  | none => True
  | some s => 1 ≤ s.focus ∧ 1 ≤ s.short ∧ 1 ≤ s.long

/-! ## Field-level description of the operations -/

@[simp] theorem clearInterval_timer (id : Option Nat) (w : World) :
    (clearInterval id w).timer = w.timer := by
  cases id <;> rfl

@[simp] theorem clearInterval_modes (id : Option Nat) (w : World) :
    (clearInterval id w).TIMER_MODES = w.TIMER_MODES := by
  cases id <;> rfl

@[simp] theorem clearInterval_settings (id : Option Nat) (w : World) :
    (clearInterval id w).settings = w.settings := by
  cases id <;> rfl

@[simp] theorem clearInterval_nextId (id : Option Nat) (w : World) :
    (clearInterval id w).nextId = w.nextId := by
  cases id <;> rfl

@[simp] theorem clearInterval_progress (id : Option Nat) (w : World) :
    (clearInterval id w).progress = w.progress := by
  cases id <;> rfl

@[simp] theorem clearInterval_completedAlerts (id : Option Nat) (w : World) :
    (clearInterval id w).completedAlerts = w.completedAlerts := by
  cases id <;> rfl

@[simp] theorem clearInterval_invalidAlerts (id : Option Nat) (w : World) :
    (clearInterval id w).invalidAlerts = w.invalidAlerts := by
  cases id <;> rfl

theorem clearInterval_alive_none (w : World) :
    (clearInterval none w).alive = w.alive := rfl

theorem clearInterval_alive_some (i : Nat) (w : World) :
    (clearInterval (some i) w).alive = w.alive.filter (fun j => decide (j ≠ i)) := rfl

/-- A cleared handle is no longer alive. -/
theorem not_mem_clearInterval (i : Nat) (w : World) :
    i ∉ (clearInterval (some i) w).alive := by
  simp [clearInterval_alive_some, List.mem_filter]

/-- Clearing never adds a handle. -/
theorem clearInterval_length_le (id : Option Nat) (w : World) :
    (clearInterval id w).alive.length ≤ w.alive.length := by
  cases id with
  | none => exact le_of_eq rfl
  | some i => exact List.length_filter_le _ _

/-- Clearing with no interval alive leaves none alive. -/
theorem clearInterval_alive_nil (id : Option Nat) (w : World) (h : w.alive = []) :
    (clearInterval id w).alive = [] := by
  cases id with
  | none => exact h
  | some i => simp [clearInterval_alive_some, h]

/-- Clearing the only interval alive leaves none alive. -/
theorem clearInterval_alive_singleton (i : Nat) (w : World) (h : w.alive = [i]) :
    (clearInterval (some i) w).alive = [] := by
  simp [clearInterval_alive_some, h]

@[simp] theorem tickBody_timer (w : World) :
    (tickBody w).timer = { w.timer with timeLeft := w.timer.timeLeft - 1 } := rfl

@[simp] theorem tickBody_modes (w : World) : (tickBody w).TIMER_MODES = w.TIMER_MODES := rfl

@[simp] theorem tickBody_alive (w : World) : (tickBody w).alive = w.alive := rfl

@[simp] theorem tickBody_settings (w : World) : (tickBody w).settings = w.settings := rfl

@[simp] theorem tickBody_nextId (w : World) : (tickBody w).nextId = w.nextId := rfl

@[simp] theorem tickBody_completedAlerts (w : World) :
    (tickBody w).completedAlerts = w.completedAlerts := rfl

@[simp] theorem tickBody_invalidAlerts (w : World) :
    (tickBody w).invalidAlerts = w.invalidAlerts := rfl

theorem tickBody_progress (w : World) :
    (tickBody w).progress
      = progressPercent (w.timer.timeLeft - 1) (w.TIMER_MODES.get w.timer.mode) := rfl

@[simp] theorem pauseTimer_timer (w : World) :
    (pauseTimer w).timer = { w.timer with isRunning := false } := by
  simp [pauseTimer]

@[simp] theorem pauseTimer_modes (w : World) : (pauseTimer w).TIMER_MODES = w.TIMER_MODES := by
  simp [pauseTimer]

@[simp] theorem pauseTimer_settings (w : World) : (pauseTimer w).settings = w.settings := by
  simp [pauseTimer]

@[simp] theorem pauseTimer_nextId (w : World) : (pauseTimer w).nextId = w.nextId := by
  simp [pauseTimer]

@[simp] theorem pauseTimer_completedAlerts (w : World) :
    (pauseTimer w).completedAlerts = w.completedAlerts := by
  simp [pauseTimer]

theorem pauseTimer_alive (w : World) :
    (pauseTimer w).alive = (clearInterval w.timer.intervalId w).alive := by
  cases h : w.timer.intervalId <;> simp [pauseTimer, clearInterval, h]

@[simp] theorem resetTimer_timer (w : World) :
    (resetTimer w).timer
      = { w.timer with isRunning := false, timeLeft := w.TIMER_MODES.get w.timer.mode } := by
  simp [resetTimer, setProgress]

@[simp] theorem resetTimer_modes (w : World) : (resetTimer w).TIMER_MODES = w.TIMER_MODES := by
  simp [resetTimer, setProgress]

@[simp] theorem resetTimer_settings (w : World) : (resetTimer w).settings = w.settings := by
  simp [resetTimer, setProgress]

@[simp] theorem resetTimer_nextId (w : World) : (resetTimer w).nextId = w.nextId := by
  simp [resetTimer, setProgress]

@[simp] theorem resetTimer_completedAlerts (w : World) :
    (resetTimer w).completedAlerts = w.completedAlerts := by
  simp [resetTimer, setProgress]

@[simp] theorem resetTimer_progress (w : World) : (resetTimer w).progress = JSNum.fin 100 := rfl

theorem resetTimer_alive (w : World) :
    (resetTimer w).alive = (clearInterval w.timer.intervalId w).alive := by
  simp [resetTimer, setProgress, pauseTimer_alive]

@[simp] theorem setTimerMode_timer (m : Mode) (w : World) :
    (setTimerMode m w).timer
      = { w.timer with mode := m, timeLeft := w.TIMER_MODES.get m, isRunning := false } := by
  simp [setTimerMode, setProgress]

@[simp] theorem setTimerMode_modes (m : Mode) (w : World) :
    (setTimerMode m w).TIMER_MODES = w.TIMER_MODES := by
  simp [setTimerMode, setProgress]

theorem setTimerMode_alive (m : Mode) (w : World) :
    (setTimerMode m w).alive = (clearInterval w.timer.intervalId w).alive := by
  cases h : w.timer.intervalId <;> simp [setTimerMode, setProgress, clearInterval, h]

@[simp] theorem completeTimer_timer (w : World) :
    (completeTimer w).timer
      = { w.timer with isRunning := false, timeLeft := w.TIMER_MODES.get w.timer.mode } := by
  simp [completeTimer]

@[simp] theorem completeTimer_modes (w : World) :
    (completeTimer w).TIMER_MODES = w.TIMER_MODES := by
  simp [completeTimer]

@[simp] theorem completeTimer_settings (w : World) :
    (completeTimer w).settings = w.settings := by
  simp [completeTimer]

@[simp] theorem completeTimer_nextId (w : World) : (completeTimer w).nextId = w.nextId := by
  simp [completeTimer]

@[simp] theorem completeTimer_completedAlerts (w : World) :
    (completeTimer w).completedAlerts = w.completedAlerts + 1 := by
  simp [completeTimer]

@[simp] theorem completeTimer_progress (w : World) :
    (completeTimer w).progress = JSNum.fin 100 := rfl

/-- The second `clearInterval` of `completeTimer` (the one inside `resetTimer`)
finds the handle already cleared. -/
theorem completeTimer_alive (w : World) :
    (completeTimer w).alive = (clearInterval w.timer.intervalId w).alive := by
  cases h : w.timer.intervalId <;>
    simp [completeTimer, resetTimer, pauseTimer, setProgress, clearInterval, h]

@[simp] theorem startTimer_timer (w : World) :
    (startTimer w).timer = { w.timer with isRunning := true, intervalId := some w.nextId } := rfl

@[simp] theorem startTimer_modes (w : World) : (startTimer w).TIMER_MODES = w.TIMER_MODES := rfl

@[simp] theorem startTimer_alive (w : World) : (startTimer w).alive = w.nextId :: w.alive := rfl

@[simp] theorem startTimer_nextId (w : World) : (startTimer w).nextId = w.nextId + 1 := rfl

@[simp] theorem startTimer_completedAlerts (w : World) :
    (startTimer w).completedAlerts = w.completedAlerts := rfl

@[simp] theorem startTimer_progress (w : World) : (startTimer w).progress = w.progress := rfl

/-- A firing with more than one second left only runs the first part of the
callback. -/
theorem tick_of_gt_one (i : Nat) (w : World) (hi : i ∈ w.alive) (h : 1 < w.timer.timeLeft) :
    tick i w = tickBody w := by
  have h0 : ¬ ((tickBody w).timer.timeLeft ≤ 0) := by
    simp only [tickBody_timer]
    omega
  unfold tick intervalCallback
  rw [if_pos hi]
  exact if_neg h0

/-- A firing with at most one second left runs `completeTimer`. -/
theorem tick_of_le_one (i : Nat) (w : World) (hi : i ∈ w.alive) (h : w.timer.timeLeft ≤ 1) :
    tick i w = completeTimer (tickBody w) := by
  have h0 : (tickBody w).timer.timeLeft ≤ 0 := by
    simp only [tickBody_timer]
    omega
  unfold tick intervalCallback
  rw [if_pos hi]
  exact if_pos h0

/-- A firing of an interval that is not alive changes nothing. -/
theorem tick_of_not_mem (i : Nat) (w : World) (hi : i ∉ w.alive) : tick i w = w := by
  simp [tick, hi]

/-- While more than one second is left, each firing of the interval that
`startTimer` installed only counts down: after `k < d` firings `d - k` seconds
are left, the interval is still alive and no completion has happened. -/
theorem ticks_countdown (w : World) (d : Nat) (hleft : w.timer.timeLeft = d) :
    ∀ k : Nat, k < d →
      ((tick w.nextId)^[k] (startTimer w)).timer
          = { (startTimer w).timer with timeLeft := (d : Int) - k }
      ∧ ((tick w.nextId)^[k] (startTimer w)).alive = w.nextId :: w.alive
      ∧ ((tick w.nextId)^[k] (startTimer w)).TIMER_MODES = w.TIMER_MODES
      ∧ ((tick w.nextId)^[k] (startTimer w)).completedAlerts = w.completedAlerts := by
  intro k
  induction k with
  | zero =>
    intro _
    refine ⟨?_, rfl, rfl, rfl⟩
    simp [hleft]
  | succ k ih =>
    intro hk
    obtain ⟨ht, ha, hm, hc⟩ := ih (by omega)
    have hmem : w.nextId ∈ ((tick w.nextId)^[k] (startTimer w)).alive := by
      rw [ha]
      exact List.mem_cons_self _ _
    have hgt : 1 < ((tick w.nextId)^[k] (startTimer w)).timer.timeLeft := by
      rw [ht]
      show (1 : Int) < (d : Int) - k
      omega
    rw [Function.iterate_succ_apply', tick_of_gt_one _ _ hmem hgt]
    refine ⟨?_, ?_, ?_, ?_⟩
    · rw [tickBody_timer, ht]
      simp only [startTimer_timer, Timer.mk.injEq, and_true]
      push_cast
      ring
    · rw [tickBody_alive, ha]
    · rw [tickBody_modes, hm]
    · rw [tickBody_completedAlerts, hc]

/-! ## The running flag and the live intervals -/

/-- Whether `inSync` holds depends only on the running flag, the recorded
handle and the live intervals. -/
theorem inSync_congr {w v : World} (hr : v.timer.isRunning = w.timer.isRunning)
    (hi : v.timer.intervalId = w.timer.intervalId) (ha : v.alive = w.alive)
    (h : inSync w) : inSync v := by
  unfold inSync oneRecorded at *
  rw [hr, hi, ha]
  exact h

/-- A timer that is not running and has no interval alive is in sync. -/
theorem inSync_of_quiet {w : World} (hr : w.timer.isRunning = false) (ha : w.alive = []) :
    inSync w := by
  unfold inSync oneRecorded
  simp [hr, ha]

/-- In a state in sync, clearing the recorded interval leaves none alive. -/
theorem clearInterval_alive_of_inSync {w : World} (h : inSync w) :
    (clearInterval w.timer.intervalId w).alive = [] := by
  cases hr : w.timer.isRunning with
  | false => exact clearInterval_alive_nil _ _ (h.2.1 hr)
  | true =>
    obtain ⟨hlen, hrec⟩ := h.1.1 hr
    obtain ⟨i, hi⟩ := List.length_eq_one.1 hlen
    have hid : w.timer.intervalId = some i := hrec i (by simp [hi])
    rw [hid]
    exact clearInterval_alive_singleton i w hi

/-- In a state in sync at most one interval is alive. -/
theorem alive_length_le_one_of_inSync {w : World} (h : inSync w) : w.alive.length ≤ 1 := by
  cases hr : w.timer.isRunning with
  | false => simp [h.2.1 hr]
  | true => exact le_of_eq (h.1.1 hr).1

theorem inSync_pauseTimer {w : World} (h : inSync w) : inSync (pauseTimer w) :=
  inSync_of_quiet (by simp) (by rw [pauseTimer_alive]; exact clearInterval_alive_of_inSync h)

theorem inSync_resetTimer {w : World} (h : inSync w) : inSync (resetTimer w) :=
  inSync_of_quiet (by simp) (by rw [resetTimer_alive]; exact clearInterval_alive_of_inSync h)

theorem inSync_setTimerMode (m : Mode) {w : World} (h : inSync w) :
    inSync (setTimerMode m w) :=
  inSync_of_quiet (by simp) (by rw [setTimerMode_alive]; exact clearInterval_alive_of_inSync h)

theorem inSync_completeTimer {w : World} (h : inSync w) : inSync (completeTimer w) :=
  inSync_of_quiet (by simp) (by rw [completeTimer_alive]; exact clearInterval_alive_of_inSync h)

/-- Starting a timer that is not running keeps the state in sync. -/
theorem inSync_startTimer {w : World} (h : inSync w) (hr : w.timer.isRunning = false) :
    inSync (startTimer w) := by
  have ha : w.alive = [] := h.2.1 hr
  unfold inSync oneRecorded
  simp [ha]

theorem inSync_toggleTimer {w : World} (h : inSync w) : inSync (toggleTimer w) := by
  unfold toggleTimer
  cases hr : w.timer.isRunning with
  | false => simpa using inSync_startTimer h hr
  | true => simpa using inSync_pauseTimer h

theorem inSync_saveSettings (f s l : Int) {w : World} (h : inSync w) :
    inSync (saveSettings f s l w) := by
  refine inSync_congr ?_ ?_ ?_ h
  · cases hv : settingsInvalid ⟨f, s, l⟩ <;> cases hr : w.timer.isRunning <;>
      simp [saveSettings, hv, hr, setProgress]
  · cases hv : settingsInvalid ⟨f, s, l⟩ <;> cases hr : w.timer.isRunning <;>
      simp [saveSettings, hv, hr, setProgress]
  · cases hv : settingsInvalid ⟨f, s, l⟩ <;> cases hr : w.timer.isRunning <;>
      simp [saveSettings, hv, hr, setProgress]

theorem inSync_tickBody {w : World} (h : inSync w) : inSync (tickBody w) :=
  inSync_congr rfl rfl rfl h

theorem inSync_tick (i : Nat) {w : World} (h : inSync w) : inSync (tick i w) := by
  unfold tick intervalCallback
  by_cases hi : i ∈ w.alive
  · rw [if_pos hi]
    by_cases h0 : (tickBody w).timer.timeLeft ≤ 0
    · simp only [if_pos h0]
      exact inSync_completeTimer (inSync_tickBody h)
    · simp only [if_neg h0]
      exact inSync_tickBody h
  · rw [if_neg hi]
    exact h

theorem inSync_boot (saved : Option Settings) : inSync (boot saved) := by
  cases saved with
  | none => exact inSync_of_quiet rfl rfl
  | some st => exact inSync_of_quiet rfl rfl

/-- Every event of the page keeps the state in sync. -/
theorem inSync_apply (e : UIEvent) {w : World} (h : inSync w) : inSync (e.apply w) := by
  cases e with
  | clickStart => exact inSync_toggleTimer h
  | clickReset => exact inSync_resetTimer h
  | clickMode m => exact inSync_setTimerMode m h
  | clickSave f s l => exact inSync_saveSettings f s l h
  | fire i => exact inSync_tick i h

theorem inSync_runUI (es : List UIEvent) : ∀ w : World, inSync w → inSync (runUI es w) := by
  induction es with
  | nil => intro w h; exact h
  | cons e es ih =>
    intro w h
    exact ih (e.apply w) (inSync_apply e h)

/-- A sequence of calls whose starts are all made on a stopped timer keeps the
state in sync after each of its prefixes. -/
theorem inSync_runCalls_take (cs : List Call) :
    ∀ (w : World), inSync w → startsGuarded cs w = true →
      ∀ k, inSync (runCalls (cs.take k) w) := by
  induction cs with
  | nil =>
    intro w h _ k
    simpa [runCalls] using h
  | cons c cs ih =>
    intro w h hg k
    cases k with
    | zero => simpa [runCalls] using h
    | succ k =>
      have hstep : inSync (c.apply w) ∧ startsGuarded cs (c.apply w) = true := by
        cases c with
        | start =>
          simp only [startsGuarded, Bool.and_eq_true, Bool.not_eq_true'] at hg
          exact ⟨inSync_startTimer h hg.1, hg.2⟩
        | pause => exact ⟨inSync_pauseTimer h, hg⟩
        | reset => exact ⟨inSync_resetTimer h, hg⟩
        | switchMode m => exact ⟨inSync_setTimerMode m h, hg⟩
      exact ih (c.apply w) hstep.1 hstep.2 k

/-! ## The range of `timeLeft` -/

theorem get_nonneg_of_modesNonneg {w : World} (h : modesNonneg w) (m : Mode) :
    0 ≤ w.TIMER_MODES.get m := by
  cases m
  · exact h.1
  · exact h.2.1
  · exact h.2.2

/-- A state whose `timeLeft` is the entry of its mode is in range as soon as the
table has no negative entry. -/
theorem timeInRange_of_full {w : World} (hm : modesNonneg w)
    (h : w.timer.timeLeft = w.TIMER_MODES.get w.timer.mode) : timeInRange w := by
  unfold timeInRange
  rw [h]
  exact ⟨get_nonneg_of_modesNonneg hm _, le_refl _⟩

theorem timeInRange_tick (i : Nat) {w : World} (hm : modesNonneg w) (hr : timeInRange w) :
    timeInRange (tick i w) := by
  unfold tick intervalCallback
  by_cases hi : i ∈ w.alive
  · rw [if_pos hi]
    by_cases h0 : (tickBody w).timer.timeLeft ≤ 0
    · simp only [if_pos h0]
      have hmc : modesNonneg (completeTimer (tickBody w)) := by
        unfold modesNonneg
        simpa using hm
      exact timeInRange_of_full hmc (by simp)
    · simp only [if_neg h0]
      have h1 : ¬ (w.timer.timeLeft - 1 ≤ 0) := h0
      have h2 := hr.2
      refine ⟨?_, ?_⟩
      · show 0 ≤ w.timer.timeLeft - 1
        omega
      · show w.timer.timeLeft - 1 ≤ w.TIMER_MODES.get w.timer.mode
        omega
  · rw [if_neg hi]
    exact hr

theorem saveSettings_of_invalid (f s l : Int) (w : World)
    (hv : settingsInvalid ⟨f, s, l⟩ = true) :
    saveSettings f s l w = { w with invalidAlerts := w.invalidAlerts + 1 } := by
  simp [saveSettings, hv]

theorem saveSettings_modes_of_valid (f s l : Int) (w : World)
    (hv : settingsInvalid ⟨f, s, l⟩ = false) :
    (saveSettings f s l w).TIMER_MODES = ⟨f * 60, s * 60, l * 60⟩ := by
  cases hr : w.timer.isRunning <;> simp [saveSettings, hv, hr, setProgress]

theorem saveSettings_timer_of_running (f s l : Int) (w : World)
    (hr : w.timer.isRunning = true) : (saveSettings f s l w).timer = w.timer := by
  cases hv : settingsInvalid ⟨f, s, l⟩ <;> simp [saveSettings, hv, hr]

theorem saveSettings_timer_of_idle (f s l : Int) (w : World)
    (hv : settingsInvalid ⟨f, s, l⟩ = false) (hr : w.timer.isRunning = false) :
    (saveSettings f s l w).timer
      = { w.timer with timeLeft := TimerModes.get ⟨f * 60, s * 60, l * 60⟩ w.timer.mode } := by
  simp [saveSettings, hv, hr, setProgress]

theorem valid_of_not_invalid {f s l : Int} (hv : settingsInvalid ⟨f, s, l⟩ = false) :
    1 ≤ f ∧ 1 ≤ s ∧ 1 ≤ l := by
  simp only [settingsInvalid, Bool.or_eq_false_iff, decide_eq_false_iff_not, not_lt] at hv
  exact ⟨hv.1.1, hv.1.2, hv.2⟩

theorem modesNonneg_saveSettings (f s l : Int) {w : World} (hm : modesNonneg w) :
    modesNonneg (saveSettings f s l w) := by
  cases hv : settingsInvalid ⟨f, s, l⟩ with
  | true =>
    rw [saveSettings_of_invalid f s l w hv]
    exact hm
  | false =>
    obtain ⟨hf, hs, hl⟩ := valid_of_not_invalid hv
    unfold modesNonneg
    rw [saveSettings_modes_of_valid f s l w hv]
    refine ⟨?_, ?_, ?_⟩
    · show (0 : Int) ≤ f * 60
      omega
    · show (0 : Int) ≤ s * 60
      omega
    · show (0 : Int) ≤ l * 60
      omega

/-! ## Reset, mode switch and settings -/

/-- C6: from every state, `resetTimer` leaves `timeLeft = TIMER_MODES[mode]`,
`isRunning = false`, the mode and the table as they were, clears exactly the
recorded interval (no other handle is touched, none is added), and reports
100% progress. -/
theorem resetTimer_spec (w : World) :
    (resetTimer w).timer.timeLeft = w.TIMER_MODES.get w.timer.mode
    ∧ (resetTimer w).timer.isRunning = false
    ∧ (resetTimer w).timer.mode = w.timer.mode
    ∧ (resetTimer w).TIMER_MODES = w.TIMER_MODES
    ∧ (∀ i, w.timer.intervalId = some i → i ∉ (resetTimer w).alive)
    ∧ (∀ j, j ∈ (resetTimer w).alive ↔ (j ∈ w.alive ∧ w.timer.intervalId ≠ some j))
    ∧ (resetTimer w).progress = JSNum.fin 100 := by
  refine ⟨?_, ?_, ?_, ?_, ?_, ?_, ?_⟩
  · simp [resetTimer, pauseTimer, setProgress]
  · simp [resetTimer, pauseTimer, setProgress]
  · simp [resetTimer, pauseTimer, setProgress]
  · simp [resetTimer, pauseTimer, setProgress]
  · intro i hi
    simp [resetTimer, pauseTimer, setProgress, hi, clearInterval_alive_some]
  · intro j
    cases hid : w.timer.intervalId with
    | none => simp [resetTimer, pauseTimer, setProgress, hid, clearInterval_alive_none]
    | some i =>
      simp only [resetTimer, pauseTimer, setProgress, hid, clearInterval_alive_some,
        List.mem_filter, decide_eq_true_eq, ne_eq, Option.some.injEq]
      exact and_congr_right (fun _ => not_congr eq_comm)
  · simp [resetTimer, setProgress]

/-- C4: a save in which some minute value is below `1` is rejected: the
validation alert is shown once and nothing else changes, so the table, the
stored settings and the timer are what they were before the click. -/
theorem saveSettings_rejected (f s l : Int) (w : World) (h : f < 1 ∨ s < 1 ∨ l < 1) :
    saveSettings f s l w = { w with invalidAlerts := w.invalidAlerts + 1 }
    ∧ (saveSettings f s l w).TIMER_MODES = w.TIMER_MODES
    ∧ (saveSettings f s l w).settings = w.settings
    ∧ (saveSettings f s l w).timer = w.timer
    ∧ (saveSettings f s l w).alive = w.alive
    ∧ (saveSettings f s l w).progress = w.progress := by
  have hv : settingsInvalid ⟨f, s, l⟩ = true := by
    simp only [settingsInvalid, Bool.or_eq_true, decide_eq_true_eq]
    tauto
  have hw : saveSettings f s l w = { w with invalidAlerts := w.invalidAlerts + 1 } := by
    simp [saveSettings, hv]
  refine ⟨hw, ?_, ?_, ?_, ?_, ?_⟩ <;> rw [hw]

/-- The save `(0, 5, 5)` on the start-up state is rejected (witness of C4). -/
theorem saveSettings_rejected_witness :
    ((0 : Int) < 1 ∨ (5 : Int) < 1 ∨ (5 : Int) < 1)
    ∧ (saveSettings 0 5 5 (boot none)).TIMER_MODES = (boot none).TIMER_MODES
    ∧ (saveSettings 0 5 5 (boot none)).settings = (boot none).settings
    ∧ (saveSettings 0 5 5 (boot none)).timer = (boot none).timer :=
  ⟨by decide,
   (saveSettings_rejected 0 5 5 (boot none) (by decide)).2.1,
   (saveSettings_rejected 0 5 5 (boot none) (by decide)).2.2.1,
   (saveSettings_rejected 0 5 5 (boot none) (by decide)).2.2.2.1⟩

/-- C8, as stated, fails: on the idle timer with `timeLeft = 0` neither
`startTimer` nor `toggleTimer` is refused; the running flag is set and an
interval is installed, and its first firing takes `timeLeft` to `-1`. -/
theorem zero_start_not_refused :
    idleAtZero.timer.isRunning = false
    ∧ idleAtZero.timer.timeLeft = 0
    ∧ idleAtZero.alive = []
    ∧ (startTimer idleAtZero).timer.isRunning = true
    ∧ (startTimer idleAtZero).alive = [0]
    ∧ (toggleTimer idleAtZero).timer.isRunning = true
    ∧ (toggleTimer idleAtZero).alive = [0]
    ∧ (tickBody (startTimer idleAtZero)).timer.timeLeft = -1 := by
  refine ⟨rfl, rfl, rfl, rfl, rfl, rfl, rfl, rfl⟩

/-- C8 (amended): on every idle timer with `timeLeft = 0`, `toggleTimer`
dispatches to `startTimer`, which sets the running flag and installs one new
interval, leaving `timeLeft`, the mode and the table as they were; the first
firing of that interval takes `timeLeft` to `-1`, then `completeTimer` shows
the alert once, clears the interval and leaves the timer idle with
`timeLeft = TIMER_MODES[mode]`. -/
theorem start_at_zero (w : World) (hidle : w.timer.isRunning = false)
    (hzero : w.timer.timeLeft = 0) :
    toggleTimer w = startTimer w
    ∧ (startTimer w).timer
        = { timeLeft := 0, mode := w.timer.mode, isRunning := true, intervalId := some w.nextId }
    ∧ (startTimer w).alive = w.nextId :: w.alive
    ∧ (startTimer w).TIMER_MODES = w.TIMER_MODES
    ∧ (tickBody (startTimer w)).timer.timeLeft = -1
    ∧ (tick w.nextId (startTimer w)).timer
        = { timeLeft := w.TIMER_MODES.get w.timer.mode, mode := w.timer.mode,
            isRunning := false, intervalId := some w.nextId }
    ∧ w.nextId ∉ (tick w.nextId (startTimer w)).alive
    ∧ (tick w.nextId (startTimer w)).completedAlerts = w.completedAlerts + 1 := by
  have hmem : w.nextId ∈ (startTimer w).alive := List.mem_cons_self _ _
  have hle : (startTimer w).timer.timeLeft ≤ 1 := by
    rw [startTimer_timer]
    show w.timer.timeLeft ≤ 1
    omega
  have htick := tick_of_le_one w.nextId (startTimer w) hmem hle
  refine ⟨?_, ?_, rfl, rfl, ?_, ?_, ?_, ?_⟩
  · simp [toggleTimer, hidle]
  · rw [startTimer_timer, ← hzero]
  · rw [tickBody_timer, startTimer_timer]
    show w.timer.timeLeft - 1 = -1
    omega
  · rw [htick]
    simp
  · rw [htick, completeTimer_alive]
    simp [clearInterval_alive_some]
  · rw [htick]
    simp

/-- The idle timer at `0` (witness of the amended C8). -/
theorem start_at_zero_witness :
    (idleAtZero.timer.isRunning = false ∧ idleAtZero.timer.timeLeft = 0)
    ∧ toggleTimer idleAtZero = startTimer idleAtZero
    ∧ (tick idleAtZero.nextId (startTimer idleAtZero)).timer
        = { timeLeft := idleAtZero.TIMER_MODES.get idleAtZero.timer.mode,
            mode := idleAtZero.timer.mode, isRunning := false,
            intervalId := some idleAtZero.nextId } :=
  ⟨⟨rfl, rfl⟩, (start_at_zero idleAtZero rfl rfl).1, (start_at_zero idleAtZero rfl rfl).2.2.2.2.2.1⟩

/-! ## The progress fraction -/

/-- C2, as stated, fails: two calls of `startTimer` in a row from the start-up
state leave two intervals alive, the first of them no longer recorded. -/
theorem two_starts_two_sources :
    (runCalls [Call.start, Call.start] (boot none)).alive = [1, 0]
    ∧ (runCalls [Call.start, Call.start] (boot none)).alive.length = 2
    ∧ (runCalls [Call.start, Call.start] (boot none)).timer.intervalId = some 1 := by
  refine ⟨rfl, rfl, rfl⟩

/-- C2 (amended): from the start-up state, for every sequence of `start`,
`pause`, `reset` and `switchMode` calls in which each `start` is made while
the timer is not running (the test `toggleTimer` makes before it calls
`startTimer`), at most one interval is alive after every prefix of the
sequence. -/
theorem guarded_calls_one_source (saved : Option Settings) (cs : List Call)
    (hg : startsGuarded cs (boot saved) = true) :
    ∀ k, (runCalls (cs.take k) (boot saved)).alive.length ≤ 1 :=
  fun k => alive_length_le_one_of_inSync
    (inSync_runCalls_take cs (boot saved) (inSync_boot saved) hg k)

/-- A session that starts, pauses, starts again, resets, switches mode and
starts once more (witness of the amended C2). -/
theorem guarded_calls_one_source_witness :
    startsGuarded [Call.start, Call.pause, Call.start, Call.reset,
        Call.switchMode Mode.short, Call.start] (boot none) = true
    ∧ ∀ k, (runCalls ([Call.start, Call.pause, Call.start, Call.reset,
        Call.switchMode Mode.short, Call.start].take k) (boot none)).alive.length ≤ 1 :=
  ⟨rfl, guarded_calls_one_source none _ rfl⟩

/-- C10: in every state reached from the start-up state by the events the
page wires up (the start button through `toggleTimer`, the reset button, a
mode button, a settings save whether accepted or rejected, a firing of a live
interval), the timer is running exactly when one interval is alive and it is
the recorded one, and not running exactly when no interval is alive. -/
theorem ui_states_inSync (saved : Option Settings) (es : List UIEvent) :
    inSync (runUI es (boot saved))
    ∧ ((runUI es (boot saved)).timer.isRunning = true ↔
        ∃ i, (runUI es (boot saved)).alive = [i]
          ∧ (runUI es (boot saved)).timer.intervalId = some i)
    ∧ ((runUI es (boot saved)).timer.isRunning = false ↔ (runUI es (boot saved)).alive = []) := by
  have h := inSync_runUI es (boot saved) (inSync_boot saved)
  refine ⟨h, ?_, h.2⟩
  constructor
  · intro hr
    obtain ⟨hlen, hrec⟩ := h.1.1 hr
    obtain ⟨i, hi⟩ := List.length_eq_one.1 hlen
    exact ⟨i, hi, hrec i (by simp [hi])⟩
  · rintro ⟨i, hi, hid⟩
    refine h.1.2 ⟨by simp [hi], ?_⟩
    intro j hj
    rw [hi, List.mem_singleton] at hj
    rw [hj, hid]

/-! ## The range invariant -/

/-- C3, as stated, fails: a successful save made while the timer runs writes
the table and leaves `timeLeft` alone; after a start from the start-up state,
the save `(1, 1, 1)` leaves `timeLeft = 1500` above `TIMER_MODES[focus] = 60`. -/
theorem save_while_running_out_of_range :
    timeInRange (startTimer (boot none))
    ∧ (saveSettings 1 1 1 (startTimer (boot none))).timer.isRunning = true
    ∧ (saveSettings 1 1 1 (startTimer (boot none))).timer.timeLeft = 1500
    ∧ (saveSettings 1 1 1 (startTimer (boot none))).TIMER_MODES.get
        (saveSettings 1 1 1 (startTimer (boot none))).timer.mode = 60
    ∧ ¬ timeInRange (saveSettings 1 1 1 (startTimer (boot none))) := by
  refine ⟨by decide, rfl, rfl, rfl, by decide⟩

/-- C3 (amended): the predicate `0 <= timeLeft <= TIMER_MODES[mode]` holds in
the start-up state (default settings, or stored settings of at least one
minute each) and, in every state whose table has no negative entry, is
preserved by `startTimer`, `pauseTimer`, `resetTimer`, `setTimerMode`, a
firing of an interval, a rejected save, and a successful save made while the
timer is not running; a save made while the timer is running leaves the timer
as it is, so it keeps `0 <= timeLeft` but not the upper bound.  None of these
operations gives the table a negative entry. -/
theorem timeInRange_preserved (w : World) (hm : modesNonneg w) (hr : timeInRange w) :
    (∀ saved, savedValid saved → modesNonneg (boot saved) ∧ timeInRange (boot saved))
    ∧ (timeInRange (startTimer w) ∧ modesNonneg (startTimer w))
    ∧ (timeInRange (pauseTimer w) ∧ modesNonneg (pauseTimer w))
    ∧ (timeInRange (resetTimer w) ∧ modesNonneg (resetTimer w))
    ∧ (∀ m, timeInRange (setTimerMode m w) ∧ modesNonneg (setTimerMode m w))
    ∧ (∀ i, timeInRange (tick i w) ∧ modesNonneg (tick i w))
    ∧ (∀ f s l, modesNonneg (saveSettings f s l w))
    ∧ (∀ f s l, settingsInvalid ⟨f, s, l⟩ = true → timeInRange (saveSettings f s l w))
    ∧ (∀ f s l, w.timer.isRunning = false → timeInRange (saveSettings f s l w))
    ∧ (∀ f s l, w.timer.isRunning = true →
        (saveSettings f s l w).timer = w.timer ∧ 0 ≤ (saveSettings f s l w).timer.timeLeft) := by
  refine ⟨?_, ⟨hr, hm⟩, ⟨?_, ?_⟩, ⟨?_, ?_⟩, ?_, ?_, ?_, ?_, ?_, ?_⟩
  · intro saved hs
    cases saved with
    | none => exact ⟨by decide, by decide⟩
    | some st =>
      obtain ⟨hf, hsh, hl⟩ := hs
      have hmb : modesNonneg (boot (some st)) := by
        refine ⟨?_, ?_, ?_⟩
        · show (0 : Int) ≤ st.focus * 60
          omega
        · show (0 : Int) ≤ st.short * 60
          omega
        · show (0 : Int) ≤ st.long * 60
          omega
      exact ⟨hmb, timeInRange_of_full hmb rfl⟩
  · unfold timeInRange
    simpa using hr
  · unfold modesNonneg
    simpa using hm
  · exact timeInRange_of_full (w := resetTimer w) (by unfold modesNonneg; simpa using hm)
      (by simp)
  · unfold modesNonneg
    simpa using hm
  · intro m
    have hmm : modesNonneg (setTimerMode m w) := by
      unfold modesNonneg
      simpa using hm
    exact ⟨timeInRange_of_full hmm (by simp), hmm⟩
  · intro i
    refine ⟨timeInRange_tick i hm hr, ?_⟩
    have hmodes : (tick i w).TIMER_MODES = w.TIMER_MODES := by
      unfold tick intervalCallback
      by_cases hi : i ∈ w.alive
      · rw [if_pos hi]
        by_cases h0 : (tickBody w).timer.timeLeft ≤ 0
        · simp only [if_pos h0, completeTimer_modes, tickBody_modes]
        · simp only [if_neg h0, tickBody_modes]
      · rw [if_neg hi]
    unfold modesNonneg
    rw [hmodes]
    exact hm
  · intro f s l
    exact modesNonneg_saveSettings f s l hm
  · intro f s l hv
    rw [saveSettings_of_invalid f s l w hv]
    exact hr
  · intro f s l hidle
    cases hv : settingsInvalid ⟨f, s, l⟩ with
    | true =>
      rw [saveSettings_of_invalid f s l w hv]
      exact hr
    | false =>
      refine timeInRange_of_full (modesNonneg_saveSettings f s l hm) ?_
      rw [saveSettings_timer_of_idle f s l w hv hidle, saveSettings_modes_of_valid f s l w hv]
  · intro f s l hrun
    rw [saveSettings_timer_of_running f s l w hrun]
    exact ⟨rfl, hr.1⟩

/-- The start-up state with default settings (witness of the amended C3). -/
theorem timeInRange_preserved_witness :
    (modesNonneg (boot none) ∧ timeInRange (boot none))
    ∧ timeInRange (resetTimer (boot none))
    ∧ (∀ i, timeInRange (tick i (boot none)) ∧ modesNonneg (tick i (boot none))) :=
  ⟨⟨by decide, by decide⟩,
   (timeInRange_preserved (boot none) (by decide) (by decide)).2.2.2.1.1,
   (timeInRange_preserved (boot none) (by decide) (by decide)).2.2.2.2.2.1⟩

end Focus
